import Mathlib

/-!
Shallow embedding of `bulk_string_request.go` (package elastic): the
`BulkStringRequest` builder, its setters, and the `Source`/`String`
encoders that render the two NDJSON lines of a bulk operation.

Go's `encoding/json.Marshal` emits the keys of a `map[string]interface{}`
in ascending byte order and escapes strings with HTML escaping enabled
(`<`, `>`, `&` become `<` etc.).  The values stored in the maps of
this file are only strings, integers and one nested map, so the embedding
models exactly that fragment of the serializer.
-/

/-- Lower-case hexadecimal digit, as used by Go's JSON string escaper. -/
def hexDigit (n : Nat) : Char :=
  if n < 10 then Char.ofNat (48 + n) else Char.ofNat (87 + n)

/-- Escape one character the way Go's `encoding/json` does with HTML
escaping on: quotes, backslash, `\n`, `\r`, `\t`, other control characters
as `\u00XX`, `<`, `>`, `&` as `<`/`>`/`&`, and the line
separators U+2028/U+2029. -/
def jsonEscapeChar (c : Char) : String :=
  if c = '"' then "\\\""
  else if c = '\\' then "\\\\"
  else if c = '\n' then "\\n"
  else if c = '\r' then "\\r"
  else if c = '\t' then "\\t"
  else if c.toNat < 32 then
    "\\u00" ++ String.singleton (hexDigit (c.toNat / 16)) ++
      String.singleton (hexDigit (c.toNat % 16))
  else if c = '<' then "\\u003c"
  else if c = '>' then "\\u003e"
  else if c = '&' then "\\u0026"
  else if c.toNat = 8232 then "\\u2028"
  else if c.toNat = 8233 then "\\u2029"
  else String.singleton c

/-- Go's JSON rendering of a string: quoted and escaped. -/
def jsonQuote (s : String) : String :=
  "\"" ++ String.join (s.toList.map jsonEscapeChar) ++ "\""

/-- The JSON values that appear in this encoder: strings, integers
(Go `int` / `int64`), and objects.  An `obj` is rendered with its fields
in the order given (the embedding sorts map fields before building an
`obj`, mirroring `json.Marshal`'s key ordering for Go maps). -/
inductive Json where
  | str : String → Json
  | num : Int → Json
  | obj : List (String × Json) → Json


mutual

/-- Compact JSON serialization, as `json.Marshal` produces it. -/
def Json.marshal : Json → String
  | Json.str s => jsonQuote s
  | Json.num n => toString n
  | Json.obj fs => "\x7b" ++ Json.marshalFields fs ++ "\x7d"

/-- Comma-separated `"key":value` renderings of an object's fields. -/
def Json.marshalFields : List (String × Json) → String
  | [] => ""
  | [(k, v)] => jsonQuote k ++ ":" ++ Json.marshal v
  | (k, v) :: rest =>
      jsonQuote k ++ ":" ++ Json.marshal v ++ "," ++ Json.marshalFields rest

end

/-- Ordering of object fields by key, the order in which `json.Marshal`
emits the entries of a Go map. -/
def keyLE (a b : String × Json) : Prop := a.1 ≤ b.1

instance : DecidableRel keyLE := fun a b =>
  inferInstanceAs (Decidable (a.1 ≤ b.1))

instance : IsTotal (String × Json) keyLE :=
  ⟨fun a b => le_total a.1 b.1⟩

instance : IsTrans (String × Json) keyLE :=
  ⟨fun _ _ _ h₁ h₂ => le_trans h₁ h₂⟩

/-- A Go value handed to `json.Marshal` through `interface{}`: either a
value the serializer can encode (its encoding is `j.marshal`), or a value
it rejects (a channel, function, cyclic structure, unsupported float …),
in which case `Marshal` returns the given error. -/
inductive GoValue where
  | json : Json → GoValue
  | unsupported : String → GoValue


/-- Embedding of `json.Marshal` applied to an `interface\x7b\x7d` payload. -/
def GoValue.marshal : GoValue → Except String String
  | GoValue.json j => Except.ok j.marshal
  | GoValue.unsupported e => Except.error e

/-- The dynamic type of the `doc interface{}` field, as discriminated by
the type switch in `Source`: `json.RawMessage`, `*json.RawMessage`,
`string`, `*string`, or any other value (the `default` case). -/
inductive DocValue where
  | value : GoValue → DocValue
  | rawMessage : String → DocValue
  | rawMessagePtr : String → DocValue
  | str : String → DocValue
  | strPtr : String → DocValue


/-- The `BulkStringRequest` struct.  `source` is the memoized pair of
lines (`nil` in Go when absent). -/
structure BulkStringRequest where
  index : String := ""
  typ : String := ""
  id : String := ""
  opType : String := ""
  routing : String := ""
  parent : String := ""
  version : Int := 0
  versionType : String := ""
  doc : Option DocValue := none
  pipeline : String := ""
  retryOnConflict : Option Int := none
  ttl : String := ""
  source : Option (List String) := none


/-- Constructor `NewBulkStringRequest`: zero values everywhere, op type `"index"`. -/
def NewBulkStringRequest : BulkStringRequest :=
  { opType := "index" }

/-- Setter `Index`. -/
def BulkStringRequest.Index (r : BulkStringRequest) (index : String) :
    BulkStringRequest :=
  { r with index := index, source := none }

/-- Setter `Type`. -/
def BulkStringRequest.«Type» (r : BulkStringRequest) (typ : String) :
    BulkStringRequest :=
  { r with typ := typ, source := none }

/-- Setter `Id`. -/
def BulkStringRequest.Id (r : BulkStringRequest) (id : String) :
    BulkStringRequest :=
  { r with id := id, source := none }

/-- Setter `OpType`. -/
def BulkStringRequest.OpType (r : BulkStringRequest) (opType : String) :
    BulkStringRequest :=
  { r with opType := opType, source := none }

/-- Setter `Routing`. -/
def BulkStringRequest.Routing (r : BulkStringRequest) (routing : String) :
    BulkStringRequest :=
  { r with routing := routing, source := none }

/-- Setter `Parent`. -/
def BulkStringRequest.Parent (r : BulkStringRequest) (parent : String) :
    BulkStringRequest :=
  { r with parent := parent, source := none }

/-- Setter `Version`. -/
def BulkStringRequest.Version (r : BulkStringRequest) (version : Int) :
    BulkStringRequest :=
  { r with version := version, source := none }

/-- Setter `VersionType`. -/
def BulkStringRequest.VersionType (r : BulkStringRequest) (versionType : String) :
    BulkStringRequest :=
  { r with versionType := versionType, source := none }

/-- Setter `Doc`. -/
def BulkStringRequest.Doc (r : BulkStringRequest) (doc : DocValue) :
    BulkStringRequest :=
  { r with doc := some doc, source := none }

/-- Setter `RetryOnConflict` (stores a pointer to its argument, so an
explicit `0` is distinguishable from "never set"). -/
def BulkStringRequest.RetryOnConflict (r : BulkStringRequest)
    (retryOnConflict : Int) : BulkStringRequest :=
  { r with retryOnConflict := some retryOnConflict, source := none }

/-- Setter `TTL`. -/
def BulkStringRequest.TTL (r : BulkStringRequest) (ttl : String) :
    BulkStringRequest :=
  { r with ttl := ttl, source := none }

/-- Setter `Pipeline`. -/
def BulkStringRequest.Pipeline (r : BulkStringRequest) (pipeline : String) :
    BulkStringRequest :=
  { r with pipeline := pipeline, source := none }

/-- The entries conditionally inserted into `indexCommand`, in the order
the Go code inserts them.  Insertion order into a Go map is irrelevant:
`json.Marshal` sorts the keys (see `sortedActionFields`). -/
def actionFields (r : BulkStringRequest) : List (String × Json) :=
  (if r.index ≠ "" then [("_index", Json.str r.index)] else []) ++
  (if r.typ ≠ "" then [("_type", Json.str r.typ)] else []) ++
  (if r.id ≠ "" then [("_id", Json.str r.id)] else []) ++
  (if r.routing ≠ "" then [("_routing", Json.str r.routing)] else []) ++
  (if r.parent ≠ "" then [("_parent", Json.str r.parent)] else []) ++
  (if r.version > 0 then [("_version", Json.num r.version)] else []) ++
  (if r.versionType ≠ "" then [("_version_type", Json.str r.versionType)] else []) ++
  (r.retryOnConflict.map fun n => ("_retry_on_conflict", Json.num n)).toList ++
  (if r.ttl ≠ "" then [("_ttl", Json.str r.ttl)] else []) ++
  (if r.pipeline ≠ "" then [("pipeline", Json.str r.pipeline)] else [])

/-- The fields of `indexCommand` in the order `json.Marshal` emits them:
ascending by key. -/
def sortedActionFields (r : BulkStringRequest) : List (String × Json) :=
  List.insertionSort keyLE (actionFields r)

/-- The keys of the rendered action object, in emission order. -/
def actionKeys (r : BulkStringRequest) : List String :=
  (sortedActionFields r).map Prod.fst

/-- Line 1: `json.Marshal` of the single-key map `command`, whose value
is the map `indexCommand`; both maps marshal with keys in ascending
order (the outer map has one key, the inner one is pre-sorted). -/
def encodeLine1 (r : BulkStringRequest) : String :=
  (Json.obj [(r.opType, Json.obj (sortedActionFields r))]).marshal

/-- Line 2: the `r.doc` type switch of `Source`.  The `default` case
marshals the value (the only fallible path); `json.RawMessage`,
`*json.RawMessage`, `string` and `*string` are emitted verbatim; an
absent document yields `"\x7b\x7d"`. -/
def encodeLine2 (r : BulkStringRequest) : Except String String :=
  match r.doc with
  | some (DocValue.value v) => v.marshal
  | some (DocValue.rawMessage t) => Except.ok t
  | some (DocValue.rawMessagePtr t) => Except.ok t
  | some (DocValue.str t) => Except.ok t
  | some (DocValue.strPtr t) => Except.ok t
  | none => Except.ok "\x7b\x7d"

/-- Method `Source`: returns the memoized lines when present; otherwise builds
line 1 (infallible), then line 2 (returning the marshal error without
touching the cache when the document cannot be serialized), and memoizes
the successful result. -/
def BulkStringRequest.Source (r : BulkStringRequest) :
    Except String (List String) × BulkStringRequest :=
  match r.source with
  | some s => (Except.ok s, r)
  | none =>
    let line1 := encodeLine1 r
    match encodeLine2 r with
    | Except.error e => (Except.error e, r)
    | Except.ok line2 =>
        let lines := [line1, line2]
        (Except.ok lines, { r with source := some lines })

/-- Method `String`: `strings.Join(lines, "\n")`, or the `fmt.Sprintf`
placeholder `"error: …"` when `Source` fails. -/
def BulkStringRequest.String (r : BulkStringRequest) : String :=
  match r.Source.1 with
  | Except.error e => "error: " ++ e
  | Except.ok lines => String.intercalate "\n" lines

/-! ### Helper lemmas about the action object -/

/-- All keys the encoder can ever place into the action object, in the
order the Go code inserts them. -/
def allActionKeys : List String :=
  ["_index", "_type", "_id", "_routing", "_parent", "_version",
   "_version_type", "_retry_on_conflict", "_ttl", "pipeline"]

lemma map_fst_ite_singleton {c : Prop} [Decidable c] (k : String) (v : Json) :
    (if c then [(k, v)] else []).map Prod.fst = if c then [k] else [] := by
  split <;> simp

lemma mem_ite_singleton {α : Type _} {c : Prop} [Decidable c] {a k : α} :
    (k ∈ if c then [a] else []) ↔ k = a ∧ c := by
  split <;> simp_all

lemma ite_singleton_sublist {α : Type _} {c : Prop} [Decidable c] (a : α) :
    List.Sublist (if c then [a] else []) [a] := by
  split <;> simp

lemma retry_keys_sublist (o : Option Int) :
    List.Sublist
      ((o.map fun n => (("_retry_on_conflict" : String), Json.num n)).toList.map Prod.fst)
      ["_retry_on_conflict"] := by
  cases o <;> simp

lemma actionFields_keys_sublist (r : BulkStringRequest) :
    List.Sublist ((actionFields r).map Prod.fst) allActionKeys := by
  simp only [actionFields, List.map_append]
  show List.Sublist _
    (["_index"] ++ ["_type"] ++ ["_id"] ++ ["_routing"] ++ ["_parent"] ++
     ["_version"] ++ ["_version_type"] ++ ["_retry_on_conflict"] ++ ["_ttl"] ++ ["pipeline"])
  rw [map_fst_ite_singleton, map_fst_ite_singleton, map_fst_ite_singleton,
    map_fst_ite_singleton, map_fst_ite_singleton, map_fst_ite_singleton,
    map_fst_ite_singleton, map_fst_ite_singleton, map_fst_ite_singleton]
  exact .append (.append (.append (.append (.append (.append (.append (.append
    (.append (ite_singleton_sublist _) (ite_singleton_sublist _))
    (ite_singleton_sublist _)) (ite_singleton_sublist _)) (ite_singleton_sublist _))
    (ite_singleton_sublist _)) (ite_singleton_sublist _)) (retry_keys_sublist _))
    (ite_singleton_sublist _)) (ite_singleton_sublist _)

lemma actionKeys_perm (r : BulkStringRequest) :
    List.Perm (actionKeys r) ((actionFields r).map Prod.fst) :=
  (List.perm_insertionSort keyLE (actionFields r)).map Prod.fst

lemma mem_actionKeys (r : BulkStringRequest) (k : String) :
    k ∈ actionKeys r ↔
      r.index ≠ "" ∧ k = "_index" ∨
      r.typ ≠ "" ∧ k = "_type" ∨
      r.id ≠ "" ∧ k = "_id" ∨
      r.routing ≠ "" ∧ k = "_routing" ∨
      r.parent ≠ "" ∧ k = "_parent" ∨
      0 < r.version ∧ k = "_version" ∨
      r.versionType ≠ "" ∧ k = "_version_type" ∨
      r.retryOnConflict ≠ none ∧ k = "_retry_on_conflict" ∨
      r.ttl ≠ "" ∧ k = "_ttl" ∨
      r.pipeline ≠ "" ∧ k = "pipeline" := by
  rw [(actionKeys_perm r).mem_iff]
  rcases hro : r.retryOnConflict with _ | n <;>
    simp [actionFields, hro, or_assoc]

/-! ### Helper lemmas about `Source` -/

lemma Source_cache_some {r : BulkStringRequest} {s : List String}
    (h : r.source = some s) : r.Source = (Except.ok s, r) := by
  simp [BulkStringRequest.Source, h]

lemma Source_cache_none_ok {r : BulkStringRequest} (h : r.source = none)
    {l2 : String} (h2 : encodeLine2 r = Except.ok l2) :
    r.Source = (Except.ok [encodeLine1 r, l2],
      { r with source := some [encodeLine1 r, l2] }) := by
  simp [BulkStringRequest.Source, h, h2]

lemma Source_cache_none_err {r : BulkStringRequest} (h : r.source = none)
    {e : String} (h2 : encodeLine2 r = Except.error e) :
    r.Source = (Except.error e, r) := by
  simp [BulkStringRequest.Source, h, h2]

/-! ### The claims -/

/-- C1: For every request state, the JSON object keys on line 1 produced
by `Source()` (both the single top-level key and the keys of the nested
action object) are emitted in strict ascending byte/lexicographic order,
for any combination of set fields.  Line 1 is the rendering of the
single-key object `opType ↦ action object`, whose nested fields are
`sortedActionFields r`; both key lists are strictly sorted. -/
theorem line1_keys_strictly_ascending (r : BulkStringRequest) :
    encodeLine1 r = (Json.obj [(r.opType, Json.obj (sortedActionFields r))]).marshal ∧
    List.Sorted (fun a b : String => a < b) [r.opType] ∧
    List.Sorted (fun a b : String => a < b) (actionKeys r) := by
  refine ⟨rfl, List.sorted_singleton _, ?_⟩
  have hs : List.Pairwise keyLE (sortedActionFields r) :=
    List.sorted_insertionSort keyLE (actionFields r)
  have hle : List.Pairwise (fun a b : String => a ≤ b) (actionKeys r) :=
    List.pairwise_map.mpr hs
  have hnd : (actionKeys r).Nodup :=
    (actionKeys_perm r).nodup_iff.mpr
      ((actionFields_keys_sublist r).nodup (by decide))
  exact List.Sorted.lt_of_le hle hnd

/-- C2: For every request state, line 1 produced by `Source()` is a JSON
object with exactly one top-level key equal to `opType`, whose value
contains a key for an optional string field (`index` as `"_index"`,
`documentType` as `"_type"`, `id` as `"_id"`, `routing` as `"_routing"`,
`parent` as `"_parent"`, `versionType` as `"_version_type"`, `ttl` as
`"_ttl"`, `pipeline` as `"pipeline"`) if and only if that field is
non-empty; no key outside the table is ever emitted and unset fields
never appear with null/empty placeholders. -/
theorem line1_key_table (r : BulkStringRequest) :
    ("_index" ∈ actionKeys r ↔ r.index ≠ "") ∧
    ("_type" ∈ actionKeys r ↔ r.typ ≠ "") ∧
    ("_id" ∈ actionKeys r ↔ r.id ≠ "") ∧
    ("_routing" ∈ actionKeys r ↔ r.routing ≠ "") ∧
    ("_parent" ∈ actionKeys r ↔ r.parent ≠ "") ∧
    ("_version_type" ∈ actionKeys r ↔ r.versionType ≠ "") ∧
    ("_ttl" ∈ actionKeys r ↔ r.ttl ≠ "") ∧
    ("pipeline" ∈ actionKeys r ↔ r.pipeline ≠ "") ∧
    (∀ k, k ∈ actionKeys r → k ∈ allActionKeys) ∧
    encodeLine1 r =
      "\x7b" ++ jsonQuote r.opType ++ ":" ++
        ("\x7b" ++ Json.marshalFields (sortedActionFields r) ++ "\x7d") ++ "\x7d" := by
  refine ⟨?_, ?_, ?_, ?_, ?_, ?_, ?_, ?_, ?_, ?_⟩
  · rw [mem_actionKeys]; simp
  · rw [mem_actionKeys]; simp
  · rw [mem_actionKeys]; simp
  · rw [mem_actionKeys]; simp
  · rw [mem_actionKeys]; simp
  · rw [mem_actionKeys]; simp
  · rw [mem_actionKeys]; simp
  · rw [mem_actionKeys]; simp
  · exact fun k hk =>
      (actionFields_keys_sublist r).subset ((actionKeys_perm r).subset hk)
  · simp [encodeLine1, Json.marshal, Json.marshalFields, String.append_assoc]

/-- Witness for C2 at a concrete request: setting only `index` makes
`"_index"` a key of the action object, and that key is in the table. -/
theorem line1_key_table_witness :
    "_index" ∈ actionKeys (NewBulkStringRequest.Index "index101") ∧
    "_index" ∈ allActionKeys :=
  ⟨(line1_key_table (NewBulkStringRequest.Index "index101")).1.mpr (by decide),
   (line1_key_table (NewBulkStringRequest.Index "index101")).2.2.2.2.2.2.2.2.1
     "_index"
     ((line1_key_table (NewBulkStringRequest.Index "index101")).1.mpr (by decide))⟩

lemma encodeLine2_error_iff (r : BulkStringRequest) (e : String) :
    encodeLine2 r = Except.error e ↔
      r.doc = some (DocValue.value (GoValue.unsupported e)) := by
  rcases hdoc : r.doc with _ | d
  · simp [encodeLine2, hdoc]
  · rcases d with v | t | t | t | t
    · rcases v with j | e' <;> simp [encodeLine2, hdoc, GoValue.marshal]
    · simp [encodeLine2, hdoc]
    · simp [encodeLine2, hdoc]
    · simp [encodeLine2, hdoc]
    · simp [encodeLine2, hdoc]

lemma source_fst_error_iff (r : BulkStringRequest) (e : String) :
    r.Source.1 = Except.error e ↔
      r.source = none ∧ encodeLine2 r = Except.error e := by
  rcases hs : r.source with _ | c
  · rcases h2 : encodeLine2 r with e' | l2
    · rw [Source_cache_none_err hs h2]; simp [h2]
    · rw [Source_cache_none_ok hs h2]; simp [h2]
  · rw [Source_cache_some hs]; simp [hs]

/-- C3: For every request state (with no memoized result pending), line 2
produced by `Source()` is: the literal `"\x7b\x7d"` when the payload is
unset; the compact JSON serialization of the payload when it is a
structured value (with serialization failure yielding the encoding
error); and the payload's bytes/characters emitted verbatim and
unmodified when it is pre-serialized raw bytes or a raw string. -/
theorem line2_payload_dispatch (r : BulkStringRequest) (h : r.source = none) :
    (r.doc = none → r.Source.1 = Except.ok [encodeLine1 r, "\x7b\x7d"]) ∧
    (∀ j, r.doc = some (DocValue.value (GoValue.json j)) →
      r.Source.1 = Except.ok [encodeLine1 r, j.marshal]) ∧
    (∀ e, r.doc = some (DocValue.value (GoValue.unsupported e)) →
      r.Source.1 = Except.error e) ∧
    (∀ t, r.doc = some (DocValue.rawMessage t) →
      r.Source.1 = Except.ok [encodeLine1 r, t]) ∧
    (∀ t, r.doc = some (DocValue.rawMessagePtr t) →
      r.Source.1 = Except.ok [encodeLine1 r, t]) ∧
    (∀ t, r.doc = some (DocValue.str t) →
      r.Source.1 = Except.ok [encodeLine1 r, t]) ∧
    (∀ t, r.doc = some (DocValue.strPtr t) →
      r.Source.1 = Except.ok [encodeLine1 r, t]) := by
  refine ⟨?_, ?_, ?_, ?_, ?_, ?_, ?_⟩
  · intro hdoc
    have h2 : encodeLine2 r = Except.ok "\x7b\x7d" := by simp [encodeLine2, hdoc]
    rw [Source_cache_none_ok h h2]
  · intro j hdoc
    have h2 : encodeLine2 r = Except.ok j.marshal := by
      simp [encodeLine2, hdoc, GoValue.marshal]
    rw [Source_cache_none_ok h h2]
  · intro e hdoc
    have h2 : encodeLine2 r = Except.error e := by
      simp [encodeLine2, hdoc, GoValue.marshal]
    rw [Source_cache_none_err h h2]
  · intro t hdoc
    have h2 : encodeLine2 r = Except.ok t := by simp [encodeLine2, hdoc]
    rw [Source_cache_none_ok h h2]
  · intro t hdoc
    have h2 : encodeLine2 r = Except.ok t := by simp [encodeLine2, hdoc]
    rw [Source_cache_none_ok h h2]
  · intro t hdoc
    have h2 : encodeLine2 r = Except.ok t := by simp [encodeLine2, hdoc]
    rw [Source_cache_none_ok h h2]
  · intro t hdoc
    have h2 : encodeLine2 r = Except.ok t := by simp [encodeLine2, hdoc]
    rw [Source_cache_none_ok h h2]

/-- Witness for C3: a fresh request has no payload and encodes line 2 as
exactly `"\x7b\x7d"`. -/
theorem line2_payload_dispatch_witness :
    NewBulkStringRequest.Source.1 =
      Except.ok [encodeLine1 NewBulkStringRequest, "\x7b\x7d"] :=
  (line2_payload_dispatch NewBulkStringRequest rfl).1 rfl

/-- C4: `Source()` returns an error if and only if serialization of a
structured-value payload fails (the raw-bytes, raw-string and
absent-payload paths, and the serialization of line 1, cannot fail), and
`String()` never propagates a failure: on encoding error it returns the
textual placeholder `"error: …"`, and otherwise returns
line1 + newline + line2. -/
theorem source_error_behavior (r : BulkStringRequest) :
    ((∃ e, r.Source.1 = Except.error e) ↔
      r.source = none ∧
        ∃ e, r.doc = some (DocValue.value (GoValue.unsupported e))) ∧
    (∀ e, r.Source.1 = Except.error e → r.String = "error: " ++ e) ∧
    (∀ l1 l2, r.Source.1 = Except.ok [l1, l2] →
      r.String = l1 ++ "\n" ++ l2) := by
  refine ⟨?_, ?_, ?_⟩
  · constructor
    · rintro ⟨e, he⟩
      rw [source_fst_error_iff] at he
      exact ⟨he.1, e, (encodeLine2_error_iff r e).mp he.2⟩
    · rintro ⟨hs, e, hdoc⟩
      exact ⟨e, (source_fst_error_iff r e).mpr
        ⟨hs, (encodeLine2_error_iff r e).mpr hdoc⟩⟩
  · intro e he
    simp [BulkStringRequest.String, he]
  · intro l1 l2 hok
    simp [BulkStringRequest.String, hok, String.intercalate, String.intercalate.go]

/-- Witness for C4: a payload the serializer rejects makes `Source` fail
and `String` degrade to the placeholder, while a fresh request renders
line1 + newline + line2. -/
theorem source_error_behavior_witness :
    (∃ e, (NewBulkStringRequest.Doc
      (DocValue.value (GoValue.unsupported "json: unsupported type: chan int"))).Source.1 =
        Except.error e) ∧
    (NewBulkStringRequest.Doc
      (DocValue.value (GoValue.unsupported "json: unsupported type: chan int"))).String =
        "error: " ++ "json: unsupported type: chan int" ∧
    NewBulkStringRequest.String = "\x7b\"index\":\x7b\x7d\x7d" ++ "\n" ++ "\x7b\x7d" :=
  ⟨(source_error_behavior _).1.mpr ⟨rfl, _, rfl⟩,
   (source_error_behavior _).2.1 _ rfl,
   (source_error_behavior _).2.2 _ _ rfl⟩

lemma Source_snd_fields (r : BulkStringRequest) :
    r.Source.2.index = r.index ∧ r.Source.2.typ = r.typ ∧
    r.Source.2.id = r.id ∧ r.Source.2.opType = r.opType ∧
    r.Source.2.routing = r.routing ∧ r.Source.2.parent = r.parent ∧
    r.Source.2.version = r.version ∧ r.Source.2.versionType = r.versionType ∧
    r.Source.2.doc = r.doc ∧ r.Source.2.pipeline = r.pipeline ∧
    r.Source.2.retryOnConflict = r.retryOnConflict ∧ r.Source.2.ttl = r.ttl := by
  rcases hs : r.source with _ | c
  · rcases h2 : encodeLine2 r with e | l2
    · simp [Source_cache_none_err hs h2]
    · simp [Source_cache_none_ok hs h2]
  · simp [Source_cache_some hs]

/-- C5: Every setter (`Index`, `Type`, `Id`, `OpType`, `Routing`,
`Parent`, `Version`, `VersionType`, `Doc`, `RetryOnConflict`, `TTL`,
`Pipeline`) clears the memoized `cachedLines`, so the cache is correct or
absent and never stale: calling `Source()` twice without intervening
mutation returns the identical cached result without recomputation (the
successful result is stored in the cache and the second call returns the
cached pair unchanged), and mutating any field between two `Source()`
calls makes the second call reflect the new state (mutating after
`Source()` yields exactly the state obtained by mutating the original
request, with the cache cleared). -/
theorem cache_never_stale (r : BulkStringRequest) (s : String)
    (v : Int) (n : Int) (d : DocValue) :
    ((r.Index s).source = none ∧ (r.«Type» s).source = none ∧
     (r.Id s).source = none ∧ (r.OpType s).source = none ∧
     (r.Routing s).source = none ∧ (r.Parent s).source = none ∧
     (r.Version v).source = none ∧ (r.VersionType s).source = none ∧
     (r.Doc d).source = none ∧ (r.RetryOnConflict n).source = none ∧
     (r.TTL s).source = none ∧ (r.Pipeline s).source = none) ∧
    (r.Source.2.Source = r.Source) ∧
    (∀ lines, r.Source.1 = Except.ok lines → r.Source.2.source = some lines) ∧
    ((r.Source.2.Index s = r.Index s) ∧ (r.Source.2.«Type» s = r.«Type» s) ∧
     (r.Source.2.Id s = r.Id s) ∧ (r.Source.2.OpType s = r.OpType s) ∧
     (r.Source.2.Routing s = r.Routing s) ∧ (r.Source.2.Parent s = r.Parent s) ∧
     (r.Source.2.Version v = r.Version v) ∧
     (r.Source.2.VersionType s = r.VersionType s) ∧
     (r.Source.2.Doc d = r.Doc d) ∧
     (r.Source.2.RetryOnConflict n = r.RetryOnConflict n) ∧
     (r.Source.2.TTL s = r.TTL s) ∧ (r.Source.2.Pipeline s = r.Pipeline s)) := by
  refine ⟨⟨rfl, rfl, rfl, rfl, rfl, rfl, rfl, rfl, rfl, rfl, rfl, rfl⟩, ?_, ?_, ?_⟩
  · rcases hs : r.source with _ | c
    · rcases h2 : encodeLine2 r with e | l2
      · simp [Source_cache_none_err hs h2]
      · rw [Source_cache_none_ok hs h2]
        exact Source_cache_some rfl
    · simp [Source_cache_some hs]
  · intro lines hok
    rcases hs : r.source with _ | c
    · rcases h2 : encodeLine2 r with e | l2
      · rw [Source_cache_none_err hs h2] at hok
        simp at hok
      · rw [Source_cache_none_ok hs h2] at hok
        injection hok with hl
        rw [Source_cache_none_ok hs h2, ← hl]
    · rw [Source_cache_some hs] at hok
      injection hok with hl
      rw [Source_cache_some hs, ← hl]
      exact hs
  · obtain ⟨h1, h2, h3, h4, h5, h6, h7, h8, h9, h10, h11, h12⟩ := Source_snd_fields r
    refine ⟨?_, ?_, ?_, ?_, ?_, ?_, ?_, ?_, ?_, ?_, ?_, ?_⟩ <;>
      simp [BulkStringRequest.Index, BulkStringRequest.«Type»,
        BulkStringRequest.Id, BulkStringRequest.OpType,
        BulkStringRequest.Routing, BulkStringRequest.Parent,
        BulkStringRequest.Version, BulkStringRequest.VersionType,
        BulkStringRequest.Doc, BulkStringRequest.RetryOnConflict,
        BulkStringRequest.TTL, BulkStringRequest.Pipeline,
        h1, h2, h3, h4, h5, h6, h7, h8, h9, h10, h11, h12]

/-- Witness for C5: on a fresh request, `Source` memoizes its successful
result. -/
theorem cache_never_stale_witness :
    NewBulkStringRequest.Source.2.source =
      some ["\x7b\"index\":\x7b\x7d\x7d", "\x7b\x7d"] :=
  (cache_never_stale NewBulkStringRequest "" 0 0 (DocValue.str "")).2.2.1
    ["\x7b\"index\":\x7b\x7d\x7d", "\x7b\x7d"] rfl

/-- C6: Presence of `retryOnConflict` is tracked independently of its
value: for every request on which `RetryOnConflict(0)` (or any value `n`)
was called, line 1's action object contains `"_retry_on_conflict"` with
that exact value, while for every request whose `retryOnConflict` pointer
is nil the key is omitted entirely; any explicitly set integer value,
including `0`, is emitted. -/
theorem retry_on_conflict_presence (r : BulkStringRequest) (n : Int) :
    (("_retry_on_conflict", Json.num n) ∈
      sortedActionFields (r.RetryOnConflict n)) ∧
    (r.retryOnConflict = some n →
      ("_retry_on_conflict", Json.num n) ∈ sortedActionFields r) ∧
    (r.retryOnConflict = none → "_retry_on_conflict" ∉ actionKeys r) ∧
    encodeLine1 (NewBulkStringRequest.RetryOnConflict 0) =
      "\x7b\"index\":\x7b\"_retry_on_conflict\":0\x7d\x7d" := by
  refine ⟨?_, ?_, ?_, ?_⟩
  · rw [sortedActionFields, List.mem_insertionSort]
    simp [actionFields, BulkStringRequest.RetryOnConflict]
  · intro h
    rw [sortedActionFields, List.mem_insertionSort]
    simp [actionFields, h]
  · intro h
    rw [mem_actionKeys]
    simp [h]
  · rfl

/-- Witness for C6 at concrete requests: an explicit `0` is emitted, and
a fresh request (nil pointer) omits the key. -/
theorem retry_on_conflict_presence_witness :
    ("_retry_on_conflict", Json.num 0) ∈
      sortedActionFields (NewBulkStringRequest.RetryOnConflict 0) ∧
    ("_retry_on_conflict", Json.num 7) ∈
      sortedActionFields (NewBulkStringRequest.RetryOnConflict 7) ∧
    "_retry_on_conflict" ∉ actionKeys NewBulkStringRequest :=
  ⟨(retry_on_conflict_presence NewBulkStringRequest 0).1,
   (retry_on_conflict_presence (NewBulkStringRequest.RetryOnConflict 7) 7).2.1 rfl,
   (retry_on_conflict_presence NewBulkStringRequest 0).2.2.1 rfl⟩

/-- C7: For every request state, line 1 contains the key `"_version"` if
and only if the `version` field is strictly positive; a version of zero
or a negative version is treated exactly like an unset version (the key
is omitted), even when `Version` was explicitly called with that value. -/
theorem version_emitted_iff_positive (r : BulkStringRequest) (v : Int) :
    ("_version" ∈ actionKeys r ↔ 0 < r.version) ∧
    (v ≤ 0 → "_version" ∉ actionKeys (r.Version v)) ∧
    (0 < v → ("_version", Json.num v) ∈ sortedActionFields (r.Version v)) := by
  refine ⟨?_, ?_, ?_⟩
  · rw [mem_actionKeys]
    simp
  · intro hv
    rw [mem_actionKeys]
    simp [BulkStringRequest.Version]
    omega
  · intro hv
    rw [sortedActionFields, List.mem_insertionSort]
    simp [actionFields, BulkStringRequest.Version, hv]

/-- Witness for C7: `Version 0` and `Version (-3)` omit the key even
though the setter was called; `Version 2` emits it. -/
theorem version_emitted_iff_positive_witness :
    "_version" ∉ actionKeys (NewBulkStringRequest.Version 0) ∧
    "_version" ∉ actionKeys (NewBulkStringRequest.Version (-3)) ∧
    ("_version", Json.num 2) ∈ sortedActionFields (NewBulkStringRequest.Version 2) ∧
    ("_version" ∈ actionKeys (NewBulkStringRequest.Version 2)) :=
  ⟨(version_emitted_iff_positive NewBulkStringRequest 0).2.1 (by decide),
   (version_emitted_iff_positive NewBulkStringRequest (-3)).2.1 (by decide),
   (version_emitted_iff_positive NewBulkStringRequest 2).2.2 (by decide),
   (version_emitted_iff_positive (NewBulkStringRequest.Version 2) 2).1.mpr (by decide)⟩

/-- The request states reachable from `NewBulkStringRequest` through the
public API: the twelve setters (with arbitrary arguments, as the code
validates none of them) and `Source` (which mutates the cache). -/
inductive Reachable : BulkStringRequest → Prop where
  | new : Reachable NewBulkStringRequest
  | index {r} (s : String) : Reachable r → Reachable (r.Index s)
  | typ {r} (s : String) : Reachable r → Reachable (r.«Type» s)
  | id {r} (s : String) : Reachable r → Reachable (r.Id s)
  | opType {r} (s : String) : Reachable r → Reachable (r.OpType s)
  | routing {r} (s : String) : Reachable r → Reachable (r.Routing s)
  | parent {r} (s : String) : Reachable r → Reachable (r.Parent s)
  | version {r} (v : Int) : Reachable r → Reachable (r.Version v)
  | versionType {r} (s : String) : Reachable r → Reachable (r.VersionType s)
  | doc {r} (d : DocValue) : Reachable r → Reachable (r.Doc d)
  | retryOnConflict {r} (n : Int) : Reachable r → Reachable (r.RetryOnConflict n)
  | ttl {r} (s : String) : Reachable r → Reachable (r.TTL s)
  | pipeline {r} (s : String) : Reachable r → Reachable (r.Pipeline s)
  | encode {r} : Reachable r → Reachable r.Source.2

/-- The reachable states in which `OpType` was only ever called with a
non-empty argument. -/
inductive ReachableNE : BulkStringRequest → Prop where
  | new : ReachableNE NewBulkStringRequest
  | index {r} (s : String) : ReachableNE r → ReachableNE (r.Index s)
  | typ {r} (s : String) : ReachableNE r → ReachableNE (r.«Type» s)
  | id {r} (s : String) : ReachableNE r → ReachableNE (r.Id s)
  | opType {r} (s : String) (hs : s ≠ "") : ReachableNE r → ReachableNE (r.OpType s)
  | routing {r} (s : String) : ReachableNE r → ReachableNE (r.Routing s)
  | parent {r} (s : String) : ReachableNE r → ReachableNE (r.Parent s)
  | version {r} (v : Int) : ReachableNE r → ReachableNE (r.Version v)
  | versionType {r} (s : String) : ReachableNE r → ReachableNE (r.VersionType s)
  | doc {r} (d : DocValue) : ReachableNE r → ReachableNE (r.Doc d)
  | retryOnConflict {r} (n : Int) : ReachableNE r → ReachableNE (r.RetryOnConflict n)
  | ttl {r} (s : String) : ReachableNE r → ReachableNE (r.TTL s)
  | pipeline {r} (s : String) : ReachableNE r → ReachableNE (r.Pipeline s)
  | encode {r} : ReachableNE r → ReachableNE r.Source.2

/-- Counterexample to C8: `OpType` stores its argument verbatim without
validation, so the state `NewBulkStringRequest().OpType("")` is reachable
through the setters yet has an empty `opType`. -/
theorem opType_can_be_emptied :
    Reachable (NewBulkStringRequest.OpType "") ∧
    (NewBulkStringRequest.OpType "").opType = "" :=
  ⟨Reachable.opType "" Reachable.new, rfl⟩

/-- C8 (amended): a newly created, unconfigured request has `opType`
`"index"` and encodes line 1 with the single top-level key `"index"`;
every setter other than `OpType` leaves `opType` unchanged and `OpType`
stores its argument verbatim, so `opType` stays non-empty in every state
reachable without calling `OpType` with an empty string. -/
theorem opType_nonempty_amended (r : BulkStringRequest) (h : ReachableNE r) :
    r.opType ≠ "" ∧
    NewBulkStringRequest.opType = "index" ∧
    encodeLine1 NewBulkStringRequest = "\x7b\"index\":\x7b\x7d\x7d" := by
  refine ⟨?_, rfl, rfl⟩
  induction h with
  | new => decide
  | index s _ ih => exact ih
  | typ s _ ih => exact ih
  | id s _ ih => exact ih
  | opType s hs _ _ => exact hs
  | routing s _ ih => exact ih
  | parent s _ ih => exact ih
  | version v _ ih => exact ih
  | versionType s _ ih => exact ih
  | doc d _ ih => exact ih
  | retryOnConflict n _ ih => exact ih
  | ttl s _ ih => exact ih
  | pipeline s _ ih => exact ih
  | @encode r' _ ih =>
      rw [(Source_snd_fields r').2.2.2.1]
      exact ih

/-- Witness for the amended C8 at a concrete reachable state. -/
theorem opType_nonempty_amended_witness :
    ((NewBulkStringRequest.Index "i").OpType "create").opType ≠ "" :=
  (opType_nonempty_amended _
    (ReachableNE.opType "create" (by decide)
      (ReachableNE.index "i" ReachableNE.new))).1

/-- C9: For every logical document content, the line 2 produced by
`Source()` is identical whether the payload was supplied as a structured
value, as the pre-serialized raw bytes of that content, or as the
pre-serialized string of that content (where the pre-serialized forms
equal the structured value's compact JSON serialization). -/
theorem payload_polymorphism (r : BulkStringRequest) (j : Json) :
    (r.Doc (DocValue.value (GoValue.json j))).Source.1 =
      (r.Doc (DocValue.rawMessage j.marshal)).Source.1 ∧
    (r.Doc (DocValue.rawMessage j.marshal)).Source.1 =
      (r.Doc (DocValue.rawMessagePtr j.marshal)).Source.1 ∧
    (r.Doc (DocValue.rawMessagePtr j.marshal)).Source.1 =
      (r.Doc (DocValue.str j.marshal)).Source.1 ∧
    (r.Doc (DocValue.str j.marshal)).Source.1 =
      (r.Doc (DocValue.strPtr j.marshal)).Source.1 ∧
    (r.Doc (DocValue.value (GoValue.json j))).Source.1 =
      Except.ok [encodeLine1 (r.Doc (DocValue.value (GoValue.json j))), j.marshal] := by
  refine ⟨rfl, rfl, rfl, rfl, ?_⟩
  have h2 : encodeLine2 (r.Doc (DocValue.value (GoValue.json j))) =
      Except.ok j.marshal := rfl
  rw [Source_cache_none_ok rfl h2]

/-- C10: `Source()` is atomic with respect to the memoized cache:
whenever `Source()` returns an error, the request (and in particular its
cache) is left unchanged with the cache unset, so a subsequent call
re-encodes from the then-current state. -/
theorem source_error_atomic (r : BulkStringRequest) (e : String)
    (h : r.Source.1 = Except.error e) :
    r.Source.2 = r ∧ r.Source.2.source = none := by
  have he := (source_fst_error_iff r e).mp h
  have h1 : r.Source.2 = r := by
    rw [Source_cache_none_err he.1 he.2]
  exact ⟨h1, by rw [h1]; exact he.1⟩

/-- Witness for C10: a request whose payload the serializer rejects. -/
theorem source_error_atomic_witness :
    (NewBulkStringRequest.Doc (DocValue.value (GoValue.unsupported "boom"))).Source.2 =
      NewBulkStringRequest.Doc (DocValue.value (GoValue.unsupported "boom")) ∧
    (NewBulkStringRequest.Doc
      (DocValue.value (GoValue.unsupported "boom"))).Source.2.source = none :=
  source_error_atomic
    (NewBulkStringRequest.Doc (DocValue.value (GoValue.unsupported "boom"))) "boom" rfl
